import Mathlib

/-
Verification of the session/relay state machine of `bot.py` (a Telegram
support-relay bot).  The definitions below are a shallow embedding of the
Python source: Python dicts become association lists (insertion ordered,
update-in-place on existing keys), Python str.split / str.replace /
str.startswith / int(...) / str(...) are modelled character-exactly on
`List Char`, and the persisted `bot_data.json` document together with the
two Prometheus gauges becomes the `BotState` record.  Handlers that can
raise (the dispatch guard calling `.startswith` on `None`, the admin-reply
tag parsing doing `split(...)[1]` and `int(...)`) return `Except PyFault`.
-/

namespace CosmeticBot

/-- A Python value usable as a dict key in this program: the code mixes
`int` user ids and `str(user_id)` keys, and the distinction is
load-bearing (see `add_active_dialog`). -/
inductive PyVal where
  | vint (n : Int)
  | vstr (s : String)
deriving DecidableEq, Repr

/-- Membership test of a key in a Python dict (`k in d.keys()` / `k in d`). -/
def dictMem {κ α : Type} [DecidableEq κ] : List (κ × α) → κ → Bool
  | [], _ => false
  | kv :: rest, k => if kv.1 = k then true else dictMem rest k

/-- Lookup (`d.get(k)` / `d[k]` when present). -/
def dictGet {κ α : Type} [DecidableEq κ] : List (κ × α) → κ → Option α
  | [], _ => none
  | kv :: rest, k => if kv.1 = k then some kv.2 else dictGet rest k

/-- Assignment `d[k] = v`: update in place when the key exists, else append
(Python dicts preserve insertion order). -/
def dictSet {κ α : Type} [DecidableEq κ] (d : List (κ × α)) (k : κ) (v : α) : List (κ × α) :=
  if dictMem d k then d.map (fun kv => if kv.1 = k then (k, v) else kv)
  else d ++ [(k, v)]

/-- Deletion `del d[k]`. -/
def dictDel {κ α : Type} [DecidableEq κ] : List (κ × α) → κ → List (κ × α)
  | [], _ => []
  | kv :: rest, k => if kv.1 = k then dictDel rest k else kv :: dictDel rest k

/-- Python `list.remove(x)`: removes the first occurrence (callers in the
source always check membership first, so the missing-element `ValueError`
path is unreachable and modelled as the identity). -/
def pyListRemove : List Int → Int → List Int
  | [], _ => []
  | a :: rest, x => if a = x then rest else a :: pyListRemove rest x

/-- Worker for Python `str.split(sep)` with non-empty `sep = s :: ss`,
scanning left to right over the characters.  `acc` is the current segment
(reversed); `skip > 0` means we are still consuming the matched separator. -/
def splitGo (s : Char) (ss : List Char) : List Char → List Char → Nat → List (List Char)
  | [], acc, _ => [acc.reverse]
  | _ :: cs, acc, k + 1 => splitGo s ss cs acc k
  | c :: cs, acc, 0 =>
    if (s :: ss).isPrefixOf (c :: cs) then
      acc.reverse :: splitGo s ss cs [] ss.length
    else
      splitGo s ss cs (c :: acc) 0

/-- Python `t.split(sep)` for a non-empty separator (an empty separator
raises `ValueError` in Python; every separator in this program is a
non-empty literal). -/
def pySplit (t sep : String) : List String :=
  match sep.data with
  | [] => []
  | s :: ss => (splitGo s ss t.data [] 0).map String.mk

/-- Python `s.replace(old, new)` for non-empty `old`. -/
def pyReplace (s old new : String) : String :=
  String.intercalate new (pySplit s old)

/-- Python `s.startswith(p)`. -/
def pyStartsWith (s p : String) : Bool :=
  p.data.isPrefixOf s.data

/-- The Python exception kinds this program can actually raise on the
modelled paths. -/
inductive PyFault where
  | attributeError
  | indexError
  | valueError
deriving DecidableEq, Repr

/-- Python list indexing `l[i]`, raising `IndexError` when out of range. -/
def pyGetIdx (l : List String) (i : Nat) : Except PyFault String :=
  match l.get? i with
  | some x => .ok x
  | none => .error .indexError

/-- Decimal digit accumulator for `int(...)`: consumes characters, failing
on the first non-digit. -/
def digitsValGo : List Char → Nat → Option Nat
  | [], acc => some acc
  | c :: cs, acc =>
    if 48 ≤ c.toNat ∧ c.toNat ≤ 57 then digitsValGo cs (acc * 10 + (c.toNat - 48))
    else none

/-- Value of a non-empty all-digit character run, else `none`. -/
def digitsVal? : List Char → Option Nat
  | [] => none
  | c :: cs => digitsValGo (c :: cs) 0

/-- Python `int(str)` on its character list: optional sign then decimal
digits; anything else raises `ValueError`.  (CPython additionally strips
whitespace and allows digit-group underscores; no string this program
parses exercises those.) -/
def pyIntChars : List Char → Except PyFault Int
  | [] => .error .valueError
  | c :: cs =>
    if c = '-' then
      match digitsVal? cs with
      | some n => .ok (-(n : Int))
      | none => .error .valueError
    else if c = '+' then
      match digitsVal? cs with
      | some n => .ok (n : Int)
      | none => .error .valueError
    else
      match digitsVal? (c :: cs) with
      | some n => .ok (n : Int)
      | none => .error .valueError

/-- Python `int(s)`. -/
def pyIntParse (s : String) : Except PyFault Int :=
  pyIntChars s.data

/-- Digits of `n` in base 10, fuel-structured so that it reduces inside
`decide`/`rfl`; `natToChars` always supplies enough fuel (`n ≤ fuel`). -/
def natToCharsGo : Nat → Nat → List Char → List Char
  | 0, n, acc => Char.ofNat (48 + n % 10) :: acc
  | fuel + 1, n, acc =>
    if n < 10 then Char.ofNat (48 + n % 10) :: acc
    else natToCharsGo fuel (n / 10) (Char.ofNat (48 + n % 10) :: acc)

/-- Decimal digit characters of a natural number, most significant first. -/
def natToChars (n : Nat) : List Char :=
  natToCharsGo n n []

/-- Python `str(i)` for an `int`. -/
def pyStrOfInt : Int → String
  | .ofNat n => String.mk (natToChars n)
  | .negSucc n => String.mk ('-' :: natToChars (n + 1))

/-- `Except`-propagation helper used to write the handler bodies in the
order the Python statements execute. -/
def exBind {α β : Type} (x : Except PyFault α) (f : α → Except PyFault β) : Except PyFault β :=
  match x with
  | .error e => .error e
  | .ok a => f a

/-- The persisted `bot_data.json` document: `active_dialogs` maps
`str(user_id)` keys to product ids (the Session Store), `blocked_users` is
a list of `int` user ids (the Block List), `dialog_messages` maps
`str(user_id)` to the recorded operator-side message ids (the Thread
Ledger). -/
structure BotData where
  active_dialogs : List (PyVal × String)
  blocked_users : List Int
  dialog_messages : List (String × List Nat)
deriving DecidableEq, Repr

/-- Persisted data plus the two Prometheus gauges `ACTIVE_DIALOGS` and
`BLOCKED_USERS`. -/
structure BotState where
  data : BotData
  activeGauge : Int
  blockedGauge : Int
deriving DecidableEq, Repr

/-- `get_dialog_messages(user_id)`: the Thread Ledger record, `[]` when
absent. -/
def get_dialog_messages (u : Int) (st : BotState) : List Nat :=
  (dictGet st.data.dialog_messages (pyStrOfInt u)).getD []

/-- `add_active_dialog(user_id, product_id)`.  Note the gauge guard tests
the `int` `user_id` against the dict keys, while the store itself is keyed
by `str(user_id)` — exactly as in the source. -/
def add_active_dialog (u : Int) (pid : String) (st : BotState) : BotState :=
  let st1 :=
    if dictMem st.data.active_dialogs (PyVal.vint u) then st
    else { st with activeGauge := st.activeGauge + 1 }
  { st1 with data := { st1.data with
      active_dialogs := dictSet st1.data.active_dialogs (PyVal.vstr (pyStrOfInt u)) pid } }

/-- `remove_active_dialog(user_id)`. -/
def remove_active_dialog (u : Int) (st : BotState) : BotState :=
  if dictMem st.data.active_dialogs (PyVal.vstr (pyStrOfInt u)) then
    { st with
      activeGauge := st.activeGauge - 1,
      data := { st.data with
        active_dialogs := dictDel st.data.active_dialogs (PyVal.vstr (pyStrOfInt u)) } }
  else st

/-- `add_blocked_user(user_id)`. -/
def add_blocked_user (u : Int) (st : BotState) : BotState :=
  if u ∈ st.data.blocked_users then st
  else
    { st with
      blockedGauge := st.blockedGauge + 1,
      data := { st.data with blocked_users := st.data.blocked_users ++ [u] } }

/-- `remove_blocked_user(user_id)`. -/
def remove_blocked_user (u : Int) (st : BotState) : BotState :=
  if u ∈ st.data.blocked_users then
    { st with
      blockedGauge := st.blockedGauge - 1,
      data := { st.data with blocked_users := pyListRemove st.data.blocked_users u } }
  else st

/-- `add_dialog_message(user_id, message_id)`: creates the record when
missing, appends when the id is not already recorded, otherwise leaves the
persisted data untouched. -/
def add_dialog_message (u : Int) (mid : Nat) (st : BotState) : BotState :=
  let key := pyStrOfInt u
  let cur := (dictGet st.data.dialog_messages key).getD []
  if mid ∈ cur then st
  else { st with data := { st.data with
      dialog_messages := dictSet st.data.dialog_messages key (cur ++ [mid]) } }

/-- `remove_dialog_messages(user_id)`. -/
def remove_dialog_messages (u : Int) (st : BotState) : BotState :=
  if dictMem st.data.dialog_messages (pyStrOfInt u) then
    { st with data := { st.data with
        dialog_messages := dictDel st.data.dialog_messages (pyStrOfInt u) } }
  else st

/-- An inbound Telegram message as the handlers see it.  `photo` is the
file id of the highest-resolution size when a (non-empty) photo list is
present; `text` is `None` for media messages. -/
structure UserMsg where
  from_user_id : Int
  from_user_name : String
  text : Option String
  caption : Option String
  photo : Option String
  doc_file : Option String
deriving DecidableEq, Repr

/-- An operator message replying to a forwarded message: `reply_to_text`
is `message.reply_to_message.text`. -/
structure ReplyMsg where
  message_id : Nat
  text : Option String
  reply_to_text : Option String
deriving DecidableEq, Repr

/-- The annotated header prepended to every forwarded payload:
`f"Сообщение от {user_name} (ID: {user_id})\nID продукта: {product_id}\n\n"`. -/
def admin_header (name : String) (uid : Int) (pid : String) : String :=
  "Сообщение от " ++ name ++ " (ID: " ++ pyStrOfInt uid ++ ")\nID продукта: " ++ pid ++ "\n\n"

/-- The notice sent for an unsupported media type (no correlation header,
no recorded handle). -/
def unsupported_note (name : String) (uid : Int) (pid : String) : String :=
  "Пользователь " ++ name ++ " (ID: " ++ pyStrOfInt uid ++ ") отправил неподдерживаемый тип медиа.\nПродукт ID: " ++ pid

/-- What `forward_to_admin` sent to the operator chat.  The first three
carry the transport-assigned message id that is recorded in the Thread
Ledger; the unsupported notice records nothing. -/
inductive Forwarded where
  | textMsg (handle : Nat) (body : String)
  | photoMsg (handle : Nat) (fileId : String) (caption : String)
  | docMsg (handle : Nat) (fileId : String) (caption : String)
  | unsupportedNote (body : String)
deriving DecidableEq, Repr

/-- Result of processing one inbound user message. -/
inductive InboundOutcome where
  | notActive
  | droppedBlocked
  | forwardedMsg (f : Forwarded)
deriving DecidableEq, Repr

/-- The `if message.text: ... elif message.photo: ... elif
message.document: ... else: ...` chain of `forward_to_admin`, with Python
truthiness (`""` and `None` are falsy, a photo list is non-empty when
present). -/
inductive PayloadKind where
  | ptext (t : String)
  | pphoto (fid : String) (cap : Option String)
  | pdoc (fid : String) (cap : Option String)
  | punsupported
deriving DecidableEq, Repr

/-- The non-text arms of the payload chain. -/
def classifyNonText (m : UserMsg) : PayloadKind :=
  match m.photo with
  | some fid => .pphoto fid m.caption
  | none =>
    match m.doc_file with
    | some fid => .pdoc fid m.caption
    | none => .punsupported

/-- The full payload chain. -/
def classify (m : UserMsg) : PayloadKind :=
  match m.text with
  | some t => if t = "" then classifyNonText m else .ptext t
  | none => classifyNonText m

/-- `message.caption if message.caption else ""`. -/
def captionOr (c : Option String) : String :=
  match c with
  | some s => if s = "" then "" else s
  | none => ""

/-- The dispatch filter of `forward_to_admin`:
`str(message.from_user.id) in get_active_dialogs().keys() and
(message.photo or not message.text.startswith("/"))`.  Evaluating
`.startswith` on `text = None` raises `AttributeError`. -/
def forward_filter (st : BotState) (m : UserMsg) : Except PyFault Bool :=
  if dictMem st.data.active_dialogs (PyVal.vstr (pyStrOfInt m.from_user_id)) then
    if m.photo.isSome then .ok true
    else
      match m.text with
      | none => .error .attributeError
      | some t => .ok (!pyStartsWith t "/")
  else .ok false

/-- The body of `forward_to_admin`, given the transport-assigned message
id `h` for whatever gets sent to the operator. -/
def forward_to_admin (st : BotState) (m : UserMsg) (h : Nat) : BotState × InboundOutcome :=
  let uid := m.from_user_id
  let pid := (dictGet st.data.active_dialogs (PyVal.vstr (pyStrOfInt uid))).getD "Неизвестно"
  if uid ∈ st.data.blocked_users then (st, .droppedBlocked)
  else
    let header := admin_header m.from_user_name uid pid
    match classify m with
    | .ptext t =>
      (add_dialog_message uid h st, .forwardedMsg (.textMsg h (header ++ t)))
    | .pphoto fid cap =>
      (add_dialog_message uid h st, .forwardedMsg (.photoMsg h fid (header ++ captionOr cap)))
    | .pdoc fid cap =>
      (add_dialog_message uid h st, .forwardedMsg (.docMsg h fid (header ++ captionOr cap)))
    | .punsupported =>
      (st, .forwardedMsg (.unsupportedNote (unsupported_note m.from_user_name uid pid)))

/-- One inbound user message through dispatch filter plus handler. -/
def inbound_message (st : BotState) (m : UserMsg) (h : Nat) :
    Except PyFault (BotState × InboundOutcome) :=
  match forward_filter st m with
  | .error e => .error e
  | .ok false => .ok (st, .notActive)
  | .ok true => .ok (forward_to_admin st m h)

/-- Whether the outcome put a message in front of the operator. -/
def forwardsMessage : Except PyFault (BotState × InboundOutcome) → Bool
  | .ok (_, .forwardedMsg _) => true
  | _ => false

/-- `admin_reply`: extract the user id from the replied-to text via
`split("(ID: ")[1].split(")")[0]` and `int(...)`, extract the display name
via `split("Сообщение от ")[1].split(" (ID:")[0]`, record the reply's own
message id in the Thread Ledger, then send `message.text` to the user.
On success returns the new state, the recipient id and the text delivered
verbatim.  There is no `try`/`except` in the source, so every parse
failure propagates as an unhandled exception (`Except.error`). -/
def admin_reply (st : BotState) (m : ReplyMsg) : Except PyFault (BotState × Int × String) :=
  match m.reply_to_text with
  | none => .error .attributeError
  | some rt =>
    exBind (pyGetIdx (pySplit rt "(ID: ") 1) fun seg1 =>
    exBind (pyGetIdx (pySplit seg1 ")") 0) fun idStr =>
    exBind (pyIntParse idStr) fun uid =>
    exBind (pyGetIdx (pySplit rt "Сообщение от ") 1) fun seg2 =>
    exBind (pyGetIdx (pySplit seg2 " (ID:") 0) fun _nm =>
    match m.text with
    | none => .error .valueError
    | some t => .ok (add_dialog_message uid m.message_id st, uid, t)

/-- `need_help`: the `need_help_{product_id}` callback handler.
`ADMIN_ID` comes from the (absent) `config.py`, so it is a parameter. -/
def need_help (adminId : Int) (st : BotState) (u : Int) (cbData : String) : BotState :=
  let pid := pyReplace cbData "need_help_" ""
  if u ∈ st.data.blocked_users ∨ u = adminId then st
  else if u ≠ adminId then add_active_dialog u pid st
  else st

/-- `end_dialog`: best-effort deletion of every recorded operator-side
message (`delOk` says whether a given `bot.delete_message` succeeds; a
failure is caught and logged and the loop continues), then clear the
Thread Ledger record and remove the active session.  Returns the new
state and the list of attempted deletions with their outcomes. -/
def end_dialog (u : Int) (delOk : Nat → Bool) (st : BotState) : BotState × List (Nat × Bool) :=
  let msgs := get_dialog_messages u st
  let attempts := msgs.map fun mid => (mid, delOk mid)
  let st1 := if msgs ≠ [] then remove_dialog_messages u st else st
  let st2 :=
    if dictMem st1.data.active_dialogs (PyVal.vstr (pyStrOfInt u)) then
      remove_active_dialog u st1
    else st1
  (st2, attempts)

/-- `block_user`: add to the Block List, then remove the active session
when one exists. -/
def block_user (u : Int) (st : BotState) : BotState :=
  let st1 := add_blocked_user u st
  if dictMem st1.data.active_dialogs (PyVal.vstr (pyStrOfInt u)) then
    remove_active_dialog u st1
  else st1

/-- The two operator-visible outcomes of `unblock_user`. -/
inductive UnblockResult where
  | unblocked
  | wasNotBlocked
deriving DecidableEq, Repr

/-- `unblock_user`: remove from the Block List when present, otherwise
answer with the distinct was-not-blocked notice and change nothing. -/
def unblock_user (u : Int) (st : BotState) : BotState × UnblockResult :=
  if u ∈ st.data.blocked_users then (remove_blocked_user u st, .unblocked)
  else (st, .wasNotBlocked)

/-- The registered callback-query handlers, in registration order. -/
inductive CallbackHandler where
  | needHelp
  | endDialogBtn
  | blockUserBtn
  | unblockUserBtn
deriving DecidableEq, Repr

/-- Callback-query dispatch: the first handler whose filter accepts the
callback data, mirroring the four `startswith` lambdas in registration
order. -/
def callback_dispatch (d : String) : Option CallbackHandler :=
  if pyStartsWith d "need_help_" then some .needHelp
  else if pyStartsWith d "end_dialog_" then some .endDialogBtn
  else if pyStartsWith d "block_user_" then some .blockUserBtn
  else if pyStartsWith d "unblock_user_" then some .unblockUserBtn
  else none

/-- The callback data of the fresh "Нужна помощь" button that `end_dialog`
attaches to its closing message. -/
def help_again_callback_data : String := "need_help"

/-- An empty persisted document with both gauges at zero. -/
def stEmpty : BotState := ⟨⟨[], [], []⟩, 0, 0⟩

/-- A state where user 42 has an active session on product "5". -/
def stActive42 : BotState := ⟨⟨[(PyVal.vstr "42", "5")], [], []⟩, 1, 0⟩

/-- A state where user 42 has an active session and two recorded thread
handles. -/
def stThread42 : BotState := ⟨⟨[(PyVal.vstr "42", "5")], [], [("42", [100, 101])]⟩, 1, 0⟩

/-- A document message with no text from user 42. -/
def msgDoc42 : UserMsg := ⟨42, "Bob", none, some "a file", none, some "file-abc"⟩

/-- A plain text message from user 42. -/
def msgText42 : UserMsg := ⟨42, "Alice", some "hello", none, none, none⟩

/-- A text message from user 42 whose sender display name embeds a fake
correlation tag. -/
def msgEvil42 : UserMsg := ⟨42, "Evil (ID: 1)", some "hello", none, none, none⟩

/- ------------------------------------------------------------------ -/
/- Lemmas about the dict model. -/

theorem dictMem_dictDel {κ α : Type} [DecidableEq κ] (d : List (κ × α)) (k : κ) :
    dictMem (dictDel d k) k = false := by
  induction d with
  | nil => rfl
  | cons kv rest ih =>
    by_cases h : kv.1 = k
    · simp [dictDel, h, ih]
    · simp [dictDel, h, dictMem, ih]

theorem dictGet_map_set {κ α : Type} [DecidableEq κ] (d : List (κ × α)) (k : κ) (v : α)
    (hm : dictMem d k = true) :
    dictGet (d.map fun kv => if kv.1 = k then (k, v) else kv) k = some v := by
  induction d with
  | nil => simp [dictMem] at hm
  | cons kv rest ih =>
    by_cases h : kv.1 = k
    · simp [dictGet, h]
    · have hm' : dictMem rest k = true := by simpa [dictMem, h] using hm
      simp [dictGet, h, ih hm']

theorem dictGet_append_new {κ α : Type} [DecidableEq κ] (d : List (κ × α)) (k : κ) (v : α)
    (hm : dictMem d k = false) :
    dictGet (d ++ [(k, v)]) k = some v := by
  induction d with
  | nil => simp [dictGet]
  | cons kv rest ih =>
    by_cases h : kv.1 = k
    · simp [dictMem, h] at hm
    · have hm' : dictMem rest k = false := by simpa [dictMem, h] using hm
      simp [dictGet, h, ih hm']

theorem dictGet_dictSet_self {κ α : Type} [DecidableEq κ] (d : List (κ × α)) (k : κ) (v : α) :
    dictGet (dictSet d k v) k = some v := by
  by_cases hm : dictMem d k = true
  · rw [dictSet, if_pos hm]
    exact dictGet_map_set d k v hm
  · rw [dictSet, if_neg hm]
    exact dictGet_append_new d k v (by simpa using hm)

/- ------------------------------------------------------------------ -/
/- Lemmas about the `str.split` model. -/

theorem isPrefixOf_self_append (l z : List Char) : l.isPrefixOf (l ++ z) = true := by
  induction l with
  | nil => simp [List.isPrefixOf]
  | cons c cs ih => simp [List.isPrefixOf, ih]

theorem isPrefixOf_cons_ne (s c : Char) (ss cs : List Char) (h : c ≠ s) :
    (s :: ss).isPrefixOf (c :: cs) = false := by
  have hb : (s == c) = false := beq_eq_false_iff_ne.mpr (Ne.symm h)
  simp [List.isPrefixOf, hb]

theorem splitGo_consume (s : Char) (ss : List Char) (X : List Char) :
    ∀ Z acc, splitGo s ss (X ++ Z) acc X.length = splitGo s ss Z acc 0 := by
  induction X with
  | nil => intro Z acc; rfl
  | cons c X' ih =>
    intro Z acc
    simpa [splitGo] using ih Z acc

theorem splitGo_hit (s : Char) (ss Z : List Char) (acc : List Char) :
    splitGo s ss ((s :: ss) ++ Z) acc 0 = acc.reverse :: splitGo s ss Z [] 0 := by
  have hp : (s :: ss).isPrefixOf ((s :: ss) ++ Z) = true := isPrefixOf_self_append _ _
  simp only [List.cons_append] at hp ⊢
  rw [splitGo, if_pos hp, splitGo_consume]

theorem splitGo_skip (s : Char) (ss : List Char) (P : List Char)
    (hP : ∀ c ∈ P, c ≠ s) :
    ∀ Z acc, splitGo s ss (P ++ Z) acc 0 = splitGo s ss Z (P.reverse ++ acc) 0 := by
  induction P with
  | nil => intro Z acc; simp
  | cons c P' ih =>
    intro Z acc
    have hc : c ≠ s := hP c (List.mem_cons_self c P')
    have hP' : ∀ x ∈ P', x ≠ s := fun x hx => hP x (List.mem_cons_of_mem c hx)
    rw [List.cons_append, splitGo, if_neg (by simp [isPrefixOf_cons_ne s c ss _ hc])]
    rw [ih hP' Z (c :: acc)]
    simp [List.append_assoc]

theorem splitGo_head (s : Char) (ss : List Char) :
    ∀ Z acc, ∃ r rest, splitGo s ss Z acc 0 = (acc.reverse ++ r) :: rest := by
  intro Z
  induction Z with
  | nil => intro acc; exact ⟨[], [], by simp [splitGo]⟩
  | cons c cs ih =>
    intro acc
    by_cases hp : (s :: ss).isPrefixOf (c :: cs) = true
    · exact ⟨[], splitGo s ss cs [] ss.length, by rw [splitGo, if_pos hp]; simp⟩
    · obtain ⟨r, rest, hr⟩ := ih (c :: acc)
      refine ⟨c :: r, rest, ?_⟩
      rw [splitGo, if_neg (by simpa using hp), hr]
      simp

/- ------------------------------------------------------------------ -/
/- Lemmas about the `str(int)` / `int(str)` round trip. -/

theorem toNat_ofNat_digit (m : Nat) (hm : m < 10) :
    (Char.ofNat (48 + m)).toNat = 48 + m := by
  interval_cases m <;> decide

theorem digitsValGo_append (xs ys : List Char) :
    ∀ a, digitsValGo (xs ++ ys) a =
      match digitsValGo xs a with
      | none => none
      | some b => digitsValGo ys b := by
  induction xs with
  | nil => intro a; simp [digitsValGo]
  | cons c cs ih =>
    intro a
    by_cases hc : 48 ≤ c.toNat ∧ c.toNat ≤ 57
    · simp only [List.cons_append, digitsValGo, if_pos hc]
      exact ih _
    · simp only [List.cons_append, digitsValGo, if_neg hc]

theorem digitsValGo_single (m : Nat) (hm : m < 10) (a : Nat) :
    digitsValGo [Char.ofNat (48 + m)] a = some (a * 10 + m) := by
  have ht := toNat_ofNat_digit m hm
  rw [digitsValGo, if_pos (by rw [ht]; omega), ht]
  simp [digitsValGo]

theorem natToCharsGo_append (fuel : Nat) :
    ∀ n acc, natToCharsGo fuel n acc = natToCharsGo fuel n [] ++ acc := by
  induction fuel with
  | zero => intro n acc; simp [natToCharsGo]
  | succ fuel ih =>
    intro n acc
    by_cases h : n < 10
    · simp [natToCharsGo, if_pos h]
    · rw [natToCharsGo, if_neg h, natToCharsGo, if_neg h]
      rw [ih (n / 10) (Char.ofNat (48 + n % 10) :: acc),
        ih (n / 10) [Char.ofNat (48 + n % 10)]]
      simp

theorem natToCharsGo_ne_nil (fuel : Nat) : ∀ n acc, natToCharsGo fuel n acc ≠ [] := by
  induction fuel with
  | zero => intro n acc; simp [natToCharsGo]
  | succ fuel ih =>
    intro n acc
    by_cases h : n < 10
    · simp [natToCharsGo, if_pos h]
    · rw [natToCharsGo, if_neg h]
      exact ih _ _

theorem natToCharsGo_digits (fuel : Nat) :
    ∀ n c, c ∈ natToCharsGo fuel n [] → 48 ≤ c.toNat ∧ c.toNat ≤ 57 := by
  induction fuel with
  | zero =>
    intro n c hc
    simp [natToCharsGo] at hc
    subst hc
    have := toNat_ofNat_digit (n % 10) (by omega)
    omega
  | succ fuel ih =>
    intro n c hc
    by_cases h : n < 10
    · rw [natToCharsGo, if_pos h] at hc
      simp at hc
      subst hc
      have := toNat_ofNat_digit (n % 10) (by omega)
      omega
    · rw [natToCharsGo, if_neg h, natToCharsGo_append fuel (n / 10) _] at hc
      rcases List.mem_append.mp hc with hin | hin
      · exact ih (n / 10) c hin
      · simp at hin
        subst hin
        have := toNat_ofNat_digit (n % 10) (by omega)
        omega

theorem natToCharsGo_val (fuel : Nat) :
    ∀ n, n ≤ fuel → ∀ a, digitsValGo (natToCharsGo fuel n []) a =
      some (a * 10 ^ (natToCharsGo fuel n []).length + n) := by
  induction fuel with
  | zero =>
    intro n hn a
    have hn0 : n = 0 := by omega
    subst hn0
    rw [show natToCharsGo 0 0 [] = [Char.ofNat (48 + 0)] from rfl]
    rw [digitsValGo_single 0 (by omega) a]
    simp
  | succ fuel ih =>
    intro n hn a
    by_cases h : n < 10
    · rw [natToCharsGo, if_pos h]
      have hmod : n % 10 = n := Nat.mod_eq_of_lt h
      rw [hmod, digitsValGo_single n h a]
      simp
    · have hrec : n / 10 ≤ fuel := by omega
      rw [natToCharsGo, if_neg h, natToCharsGo_append fuel (n / 10) _]
      rw [digitsValGo_append]
      simp only [ih (n / 10) hrec a]
      rw [digitsValGo_single (n % 10) (by omega)]
      have hdm : 10 * (n / 10) + n % 10 = n := Nat.div_add_mod n 10
      have hlen : (natToCharsGo fuel (n / 10) [] ++ [Char.ofNat (48 + n % 10)]).length
          = (natToCharsGo fuel (n / 10) []).length + 1 := by simp
      rw [hlen, pow_succ]
      congr 1
      calc (a * 10 ^ (natToCharsGo fuel (n / 10) []).length + n / 10) * 10 + n % 10
          = a * (10 ^ (natToCharsGo fuel (n / 10) []).length * 10)
            + (10 * (n / 10) + n % 10) := by ring
        _ = _ := by rw [hdm]

theorem natToChars_val (n : Nat) : digitsVal? (natToChars n) = some n := by
  have hne := natToCharsGo_ne_nil n n []
  rw [natToChars]
  cases hc : natToCharsGo n n [] with
  | nil => exact absurd hc hne
  | cons c cs =>
    rw [digitsVal?, ← hc]
    have hv := natToCharsGo_val n n (le_refl n) 0
    rw [hv]
    simp

theorem natToChars_digits (n : Nat) :
    ∀ c ∈ natToChars n, 48 ≤ c.toNat ∧ c.toNat ≤ 57 :=
  fun c hc => natToCharsGo_digits n n c hc

theorem pyIntParse_pyStrOfInt (u : Int) : pyIntParse (pyStrOfInt u) = .ok u := by
  cases u with
  | ofNat n =>
    show pyIntChars (String.mk (natToChars n)).data = Except.ok (Int.ofNat n)
    have hne := natToCharsGo_ne_nil n n []
    cases hc : natToChars n with
    | nil => exact absurd hc hne
    | cons c cs =>
      have hdig : 48 ≤ c.toNat ∧ c.toNat ≤ 57 := by
        have hmem : c ∈ natToChars n := by rw [hc]; exact List.mem_cons_self c cs
        exact natToChars_digits n c hmem
      have hcm : c ≠ '-' := by
        intro hcon; rw [hcon] at hdig; revert hdig; decide
      have hcp : c ≠ '+' := by
        intro hcon; rw [hcon] at hdig; revert hdig; decide
      have hval : digitsVal? (c :: cs) = some n := by
        rw [← hc]; exact natToChars_val n
      show pyIntChars (c :: cs) = Except.ok (Int.ofNat n)
      rw [pyIntChars, if_neg hcm, if_neg hcp, hval]
      rfl
  | negSucc n =>
    show pyIntChars ('-' :: natToChars (n + 1)) = Except.ok (Int.negSucc n)
    rw [pyIntChars, if_pos rfl, natToChars_val (n + 1)]
    simp [Int.negSucc_eq]

theorem pyStrOfInt_no_paren (u : Int) :
    ∀ c ∈ (pyStrOfInt u).data, c ≠ '(' ∧ c ≠ ')' := by
  cases u with
  | ofNat n =>
    intro c hc
    have hc2 : c ∈ natToChars n := hc
    have hd := natToChars_digits n c hc2
    constructor <;> (intro hcon; rw [hcon] at hd; revert hd; decide)
  | negSucc n =>
    intro c hc
    have hc2 : c ∈ '-' :: natToChars (n + 1) := hc
    rcases List.mem_cons.mp hc2 with h | h
    · subst h; constructor <;> decide
    · have hd := natToChars_digits (n + 1) c h
      constructor <;> (intro hcon; rw [hcon] at hd; revert hd; decide)


/- ------------------------------------------------------------------ -/
/- The correlation-tag round trip of admin_reply. -/

theorem str_data_append (a b : String) : (a ++ b).data = a.data ++ b.data := rfl

theorem header_data_split1 (name pid t : String) (u : Int) :
    (admin_header name u pid ++ t).data
      = ("Сообщение от ".data ++ name.data ++ [' '])
        ++ (('(' :: "ID: ".data)
        ++ ((pyStrOfInt u).data ++ ')'
            :: ("\nID продукта: ".data ++ pid.data ++ "\n\n".data ++ t.data))) := by
  have e1 : " (ID: ".data = [' '] ++ '(' :: "ID: ".data := rfl
  have e2 : ")\nID продукта: ".data = ')' :: "\nID продукта: ".data := rfl
  simp only [admin_header, str_data_append, e1, e2, List.append_assoc, List.cons_append,
    List.singleton_append, List.nil_append]

theorem header_data_split3 (name pid t : String) (u : Int) :
    (admin_header name u pid ++ t).data
      = ('С' :: "ообщение от ".data)
        ++ (name.data ++ " (ID: ".data ++ (pyStrOfInt u).data ++ ")\nID продукта: ".data
            ++ pid.data ++ "\n\n".data ++ t.data) := by
  have e0 : "Сообщение от ".data = 'С' :: "ообщение от ".data := rfl
  simp only [admin_header, str_data_append, e0, List.append_assoc, List.cons_append,
    List.singleton_append, List.nil_append]

theorem lit_header_no_paren : ∀ c ∈ "Сообщение от ".data, c ≠ '(' := by decide

set_option maxHeartbeats 2000000 in
theorem admin_reply_header (st : BotState) (mid : Nat) (name pid t rtext : String) (u : Int)
    (hname : ∀ c ∈ name.data, c ≠ '(') :
    admin_reply st ⟨mid, some rtext, some (admin_header name u pid ++ t)⟩ =
      .ok (add_dialog_message u mid st, u, rtext) := by
  have husp : ∀ c ∈ (pyStrOfInt u).data ++ [')'], c ≠ '(' := by
    intro c hc
    rcases List.mem_append.mp hc with h1 | h2
    · exact (pyStrOfInt_no_paren u c h1).1
    · simp at h2; subst h2; decide
  have husq : ∀ c ∈ (pyStrOfInt u).data, c ≠ ')' := fun c hc => (pyStrOfInt_no_paren u c hc).2
  have hA : ∀ c ∈ ("Сообщение от ".data ++ name.data ++ [' ']), c ≠ '(' := by
    intro c hc
    rcases List.mem_append.mp hc with h1 | h2
    · rcases List.mem_append.mp h1 with h1a | h1b
      · exact lit_header_no_paren c h1a
      · exact hname c h1b
    · simp at h2; subst h2; decide
  obtain ⟨r1, rest1, hr1⟩ := splitGo_head '(' "ID: ".data
    ("\nID продукта: ".data ++ pid.data ++ "\n\n".data ++ t.data)
    (((pyStrOfInt u).data ++ [')']).reverse ++ [])
  have hsplit1 : splitGo '(' "ID: ".data (admin_header name u pid ++ t).data [] 0
      = ("Сообщение от ".data ++ name.data ++ [' '])
        :: ((pyStrOfInt u).data ++ ')' :: r1) :: rest1 := by
    rw [header_data_split1 name pid t u]
    rw [splitGo_skip '(' "ID: ".data _ hA]
    rw [splitGo_hit '(' "ID: ".data _ _]
    rw [show (pyStrOfInt u).data ++ ')'
            :: ("\nID продукта: ".data ++ pid.data ++ "\n\n".data ++ t.data)
        = ((pyStrOfInt u).data ++ [')'])
          ++ ("\nID продукта: ".data ++ pid.data ++ "\n\n".data ++ t.data) by simp]
    rw [splitGo_skip '(' "ID: ".data _ husp]
    rw [hr1]
    simp
  have hidx1 : pyGetIdx (pySplit (admin_header name u pid ++ t) "(ID: ") 1
      = .ok (String.mk ((pyStrOfInt u).data ++ ')' :: r1)) := by
    show pyGetIdx ((splitGo '(' "ID: ".data (admin_header name u pid ++ t).data [] 0).map String.mk) 1 = _
    rw [hsplit1]
    rfl
  obtain ⟨r2, rest2, hr2⟩ := splitGo_head ')' [] r1 []
  have hidx2 : pyGetIdx (pySplit (String.mk ((pyStrOfInt u).data ++ ')' :: r1)) ")") 0
      = .ok (String.mk (pyStrOfInt u).data) := by
    show pyGetIdx ((splitGo ')' [] ((pyStrOfInt u).data ++ ')' :: r1) [] 0).map String.mk) 0 = _
    rw [splitGo_skip ')' [] _ husq]
    rw [show (')' : Char) :: r1 = ((')' : Char) :: ([] : List Char)) ++ r1 from rfl]
    rw [splitGo_hit ')' [] _ _]
    rw [hr2]
    simp only [List.append_nil, List.reverse_reverse]
    rfl
  have hint : pyIntParse (String.mk (pyStrOfInt u).data) = .ok u := pyIntParse_pyStrOfInt u
  obtain ⟨r3, rest3, hr3⟩ := splitGo_head 'С' "ообщение от ".data
    (name.data ++ " (ID: ".data ++ (pyStrOfInt u).data ++ ")\nID продукта: ".data
      ++ pid.data ++ "\n\n".data ++ t.data) []
  have hidx3 : pyGetIdx (pySplit (admin_header name u pid ++ t) "Сообщение от ") 1
      = .ok (String.mk r3) := by
    show pyGetIdx ((splitGo 'С' "ообщение от ".data (admin_header name u pid ++ t).data [] 0).map String.mk) 1 = _
    rw [header_data_split3 name pid t u]
    rw [splitGo_hit 'С' "ообщение от ".data _ _]
    rw [hr3]
    rfl
  obtain ⟨r4, rest4, hr4⟩ := splitGo_head ' ' "(ID:".data r3 []
  have hidx4 : pyGetIdx (pySplit (String.mk r3) " (ID:") 0 = .ok (String.mk r4) := by
    show pyGetIdx ((splitGo ' ' "(ID:".data r3 [] 0).map String.mk) 0 = _
    rw [hr4]
    rfl
  show exBind (pyGetIdx (pySplit (admin_header name u pid ++ t) "(ID: ") 1) _ = _
  rw [hidx1]
  show exBind (pyGetIdx (pySplit (String.mk ((pyStrOfInt u).data ++ ')' :: r1)) ")") 0) _ = _
  rw [hidx2]
  show exBind (pyIntParse (String.mk (pyStrOfInt u).data)) _ = _
  rw [hint]
  show exBind (pyGetIdx (pySplit (admin_header name u pid ++ t) "Сообщение от ") 1) _ = _
  rw [hidx3]
  show exBind (pyGetIdx (pySplit (String.mk r3) " (ID:") 0) _ = _
  rw [hidx4]
  rfl

/- ------------------------------------------------------------------ -/
/- Lemmas about the store operations. -/

theorem get_dialog_messages_add (st : BotState) (u : Int) (h : Nat)
    (hnew : h ∉ get_dialog_messages u st) :
    get_dialog_messages u (add_dialog_message u h st) = get_dialog_messages u st ++ [h] := by
  have hnew2 : h ∉ (dictGet st.data.dialog_messages (pyStrOfInt u)).getD [] := hnew
  rw [add_dialog_message]
  rw [if_neg hnew2]
  show (dictGet (dictSet st.data.dialog_messages (pyStrOfInt u)
      ((dictGet st.data.dialog_messages (pyStrOfInt u)).getD [] ++ [h])) (pyStrOfInt u)).getD []
    = get_dialog_messages u st ++ [h]
  rw [dictGet_dictSet_self]
  rfl

theorem add_dialog_message_mem_noop (st : BotState) (u : Int) (h : Nat)
    (hmem : h ∈ get_dialog_messages u st) :
    add_dialog_message u h st = st := by
  have hmem2 : h ∈ (dictGet st.data.dialog_messages (pyStrOfInt u)).getD [] := hmem
  rw [add_dialog_message, if_pos hmem2]

theorem add_blocked_user_active (st : BotState) (u : Int) :
    (add_blocked_user u st).data.active_dialogs = st.data.active_dialogs := by
  rw [add_blocked_user]
  split <;> rfl

theorem add_blocked_user_dialog_messages (st : BotState) (u : Int) :
    (add_blocked_user u st).data.dialog_messages = st.data.dialog_messages := by
  rw [add_blocked_user]
  split <;> rfl

theorem remove_active_dialog_dialog_messages (st : BotState) (u : Int) :
    (remove_active_dialog u st).data.dialog_messages = st.data.dialog_messages := by
  rw [remove_active_dialog]
  split <;> rfl

theorem remove_dialog_messages_active (st : BotState) (u : Int) :
    (remove_dialog_messages u st).data.active_dialogs = st.data.active_dialogs := by
  rw [remove_dialog_messages]
  split <;> rfl

theorem remove_active_dialog_clears (st : BotState) (u : Int) :
    dictMem (remove_active_dialog u st).data.active_dialogs
      (PyVal.vstr (pyStrOfInt u)) = false := by
  rw [remove_active_dialog]
  by_cases hm : dictMem st.data.active_dialogs (PyVal.vstr (pyStrOfInt u)) = true
  · rw [if_pos hm]
    exact dictMem_dictDel _ _
  · rw [if_neg hm]
    simpa using hm

theorem block_user_no_active (st : BotState) (u : Int) :
    dictMem (block_user u st).data.active_dialogs (PyVal.vstr (pyStrOfInt u)) = false := by
  rw [block_user]
  by_cases hm : dictMem (add_blocked_user u st).data.active_dialogs
      (PyVal.vstr (pyStrOfInt u)) = true
  · rw [if_pos hm]
    exact remove_active_dialog_clears _ _
  · rw [if_neg hm]
    simpa using hm

theorem remove_dialog_messages_clears (st : BotState) (u : Int) :
    dictMem (remove_dialog_messages u st).data.dialog_messages (pyStrOfInt u) = false := by
  rw [remove_dialog_messages]
  by_cases hm : dictMem st.data.dialog_messages (pyStrOfInt u) = true
  · rw [if_pos hm]
    exact dictMem_dictDel _ _
  · rw [if_neg hm]
    simpa using hm


/- ------------------------------------------------------------------ -/
/- Helper for EndSession cleanup (claim C5). -/

theorem end_dialog_clears (st : BotState) (u : Int) (delOk : Nat → Bool)
    (hwf : dictMem st.data.dialog_messages (pyStrOfInt u) = true →
      get_dialog_messages u st ≠ []) :
    dictMem (end_dialog u delOk st).1.data.dialog_messages (pyStrOfInt u) = false ∧
    dictMem (end_dialog u delOk st).1.data.active_dialogs
      (PyVal.vstr (pyStrOfInt u)) = false := by
  have hdm : dictMem (if get_dialog_messages u st ≠ [] then remove_dialog_messages u st
      else st).data.dialog_messages (pyStrOfInt u) = false := by
    by_cases hm : get_dialog_messages u st = []
    · rw [if_neg (not_not_intro hm)]
      cases hmem : dictMem st.data.dialog_messages (pyStrOfInt u) with
      | false => rfl
      | true => exact absurd hm (hwf hmem)
    · rw [if_pos hm]
      exact remove_dialog_messages_clears st u
  constructor
  · show dictMem
        (if dictMem (if get_dialog_messages u st ≠ [] then remove_dialog_messages u st
            else st).data.active_dialogs (PyVal.vstr (pyStrOfInt u)) then
          remove_active_dialog u (if get_dialog_messages u st ≠ [] then
            remove_dialog_messages u st else st)
        else (if get_dialog_messages u st ≠ [] then remove_dialog_messages u st
          else st)).data.dialog_messages (pyStrOfInt u) = false
    cases hact : dictMem (if get_dialog_messages u st ≠ [] then remove_dialog_messages u st
        else st).data.active_dialogs (PyVal.vstr (pyStrOfInt u)) with
    | true =>
      rw [if_pos rfl, remove_active_dialog_dialog_messages]
      exact hdm
    | false =>
      rw [if_neg (by simp)]
      exact hdm
  · show dictMem
        (if dictMem (if get_dialog_messages u st ≠ [] then remove_dialog_messages u st
            else st).data.active_dialogs (PyVal.vstr (pyStrOfInt u)) then
          remove_active_dialog u (if get_dialog_messages u st ≠ [] then
            remove_dialog_messages u st else st)
        else (if get_dialog_messages u st ≠ [] then remove_dialog_messages u st
          else st)).data.active_dialogs (PyVal.vstr (pyStrOfInt u)) = false
    cases hact : dictMem (if get_dialog_messages u st ≠ [] then remove_dialog_messages u st
        else st).data.active_dialogs (PyVal.vstr (pyStrOfInt u)) with
    | true =>
      rw [if_pos rfl]
      exact remove_active_dialog_clears _ _
    | false =>
      rw [if_neg (by simp)]
      exact hact

/- ------------------------------------------------------------------ -/
/- The claims. -/

/-- Claim C1 (code bug): two StartHelp presses by the same user leave
exactly one Session Store entry, but the active-dialog gauge is
incremented on each press (ending at 2), because `add_active_dialog`
tests the `int` user id against the `str(user_id)` keys, a test that is
always false.  The spec requires the gauge to increment exactly once. -/
theorem double_need_help_double_increments :
    (need_help 999 (need_help 999 stEmpty 42 "need_help_5") 42 "need_help_5").data.active_dialogs
      = [(PyVal.vstr "42", "5")] ∧
    (need_help 999 (need_help 999 stEmpty 42 "need_help_5") 42 "need_help_5").activeGauge = 2 :=
  ⟨rfl, rfl⟩

/-- Claim C2 counterexample: replying to a message whose text carries no
"(ID: " tag makes `admin_reply` raise a bare `IndexError`
(`split("(ID: ")[1]` on a one-element list), which propagates unhandled:
there is no distinct correlation error and no warning-level drop. -/
theorem reply_without_tag_generic_fault :
    admin_reply stActive42 ⟨7, some "hi", some "hello"⟩ = .error .indexError := rfl

/-- Claim C2 (amended): for every operator reply whose replied-to text
does not contain the "(ID: " separator, `admin_reply` raises an unhandled
generic `IndexError`; nothing is sent to any user. -/
theorem reply_without_tag_raises (st : BotState) (mid : Nat) (mtext : Option String)
    (rt : String) (hno : (pySplit rt "(ID: ").length ≤ 1) :
    admin_reply st ⟨mid, mtext, some rt⟩ = .error .indexError := by
  have hg : (pySplit rt "(ID: ").get? 1 = none := List.get?_eq_none.mpr hno
  have hidx : pyGetIdx (pySplit rt "(ID: ") 1 = .error .indexError := by
    simp only [pyGetIdx]
    rw [hg]
  show exBind (pyGetIdx (pySplit rt "(ID: ") 1) _ = _
  rw [hidx]
  rfl

/-- Claim C2 witness: the amended theorem applied to the concrete
replied-to text "hello". -/
theorem reply_without_tag_raises_witness :
    (pySplit "hello" "(ID: ").length ≤ 1 ∧
    admin_reply stEmpty ⟨3, some "x", some "hello"⟩ = .error .indexError :=
  ⟨by decide, reply_without_tag_raises stEmpty 3 (some "x") "hello" (by decide)⟩

/-- Claim C3 (code bug): a document message with no text from a user with
an active session faults in the dispatch guard itself — the guard
evaluates `message.text.startswith("/")` with `text = None` and raises
`AttributeError` — so none of the four payload paths executes and the
document branch of `forward_to_admin` is unreachable. -/
theorem document_message_faults_in_guard :
    forward_filter stActive42 msgDoc42 = .error .attributeError ∧
    msgDoc42.text = none ∧ msgDoc42.doc_file = some "file-abc" :=
  ⟨rfl, rfl, rfl⟩

/-- Claim C4: after `block_user u`, an inbound message from `u` is never
forwarded to the operator: blocking removed the active session, so the
dispatch filter rejects the update. -/
theorem blocked_then_inbound_never_forwards (st : BotState) (u : Int) (m : UserMsg)
    (h : Nat) (hm : m.from_user_id = u) :
    forwardsMessage (inbound_message (block_user u st) m h) = false := by
  subst hm
  have hmem := block_user_no_active st m.from_user_id
  have hfil : forward_filter (block_user m.from_user_id st) m = .ok false := by
    rw [forward_filter, if_neg (by rw [hmem]; simp)]
  simp only [inbound_message, hfil, forwardsMessage]

/-- Claim C4 witness: blocking user 42 and then processing a text message
from 42 forwards nothing. -/
theorem blocked_then_inbound_never_forwards_witness :
    msgText42.from_user_id = 42 ∧
    forwardsMessage (inbound_message (block_user 42 stActive42) msgText42 7) = false :=
  ⟨rfl, blocked_then_inbound_never_forwards stActive42 42 msgText42 7 rfl⟩

/-- Claim C5: EndSession with N recorded thread handles attempts exactly
one deletion per handle, in order, regardless of which deletions fail
(each failure is caught), and afterwards neither the Thread Ledger nor the
Session Store has an entry for the user.  The hypothesis rules out a
persisted empty ledger record, which no store operation can create. -/
theorem end_session_cleanup (st : BotState) (u : Int) (delOk : Nat → Bool)
    (hwf : dictMem st.data.dialog_messages (pyStrOfInt u) = true →
      get_dialog_messages u st ≠ []) :
    (end_dialog u delOk st).2 = (get_dialog_messages u st).map (fun mid => (mid, delOk mid)) ∧
    (end_dialog u delOk st).2.length = (get_dialog_messages u st).length ∧
    dictMem (end_dialog u delOk st).1.data.dialog_messages (pyStrOfInt u) = false ∧
    dictMem (end_dialog u delOk st).1.data.active_dialogs
      (PyVal.vstr (pyStrOfInt u)) = false := by
  refine ⟨rfl, by simp [end_dialog], ?_, ?_⟩
  · exact (end_dialog_clears st u delOk hwf).1
  · exact (end_dialog_clears st u delOk hwf).2

/-- Claim C5 witness: ending the session of user 42 with two recorded
handles and every deletion failing still attempts both deletions and
clears both stores. -/
theorem end_session_cleanup_witness :
    (dictMem stThread42.data.dialog_messages (pyStrOfInt 42) = true →
      get_dialog_messages 42 stThread42 ≠ []) ∧
    ((end_dialog 42 (fun _ => false) stThread42).2
        = [(100, false), (101, false)] ∧
      (end_dialog 42 (fun _ => false) stThread42).2.length = 2 ∧
      dictMem (end_dialog 42 (fun _ => false) stThread42).1.data.dialog_messages
        (pyStrOfInt 42) = false ∧
      dictMem (end_dialog 42 (fun _ => false) stThread42).1.data.active_dialogs
        (PyVal.vstr (pyStrOfInt 42)) = false) := by
  refine ⟨fun _ => by decide, ?_⟩
  have hth := end_session_cleanup stThread42 42 (fun _ => false) (fun _ => by decide)
  exact ⟨hth.1, hth.2.1, hth.2.2.1, hth.2.2.2⟩

/-- Claim C6 counterexample: the round trip is not delivered to `u` for
every user — a sender display name containing a fake tag hijacks the
first-occurrence parse.  With name "Evil (ID: 1)", user 42's forwarded
message makes `admin_reply` route the reply to user 1 and record the
reply handle under user 1, leaving user 42's ledger with one handle, not
two. -/
theorem round_trip_misroutes_on_evil_name :
    inbound_message stActive42 msgEvil42 100 =
      .ok (add_dialog_message 42 100 stActive42,
        .forwardedMsg (.textMsg 100
          "Сообщение от Evil (ID: 1) (ID: 42)\nID продукта: 5\n\nhello")) ∧
    admin_reply (add_dialog_message 42 100 stActive42)
      ⟨101, some "hi", some "Сообщение от Evil (ID: 1) (ID: 42)\nID продукта: 5\n\nhello"⟩
      = .ok (add_dialog_message 1 101 (add_dialog_message 42 100 stActive42), 1, "hi") ∧
    (1 : Int) ≠ 42 ∧
    get_dialog_messages 42
      (add_dialog_message 1 101 (add_dialog_message 42 100 stActive42)) = [100] :=
  ⟨rfl, rfl, by decide, rfl⟩

/-- Claim C6 (amended): for a user whose display name contains no '('
character, the round trip behaves as claimed — the inbound text is
forwarded with the annotated header, the operator's reply is delivered to
`u` verbatim, and `u`'s ledger holds exactly the forwarded handle and the
reply handle. -/
theorem help_round_trip (st : BotState) (u : Int) (m : UserMsg) (t r : String)
    (h1 h2 : Nat)
    (hm : m.from_user_id = u)
    (hname : ∀ c ∈ m.from_user_name.data, c ≠ '(')
    (htext : m.text = some t)
    (htne : t ≠ "")
    (hcmd : pyStartsWith t "/" = false)
    (hphoto : m.photo = none)
    (hactive : dictMem st.data.active_dialogs (PyVal.vstr (pyStrOfInt u)) = true)
    (hnb : u ∉ st.data.blocked_users)
    (hledger : get_dialog_messages u st = [])
    (hh : h1 ≠ h2) :
    inbound_message st m h1 =
      .ok (add_dialog_message u h1 st, .forwardedMsg (.textMsg h1
        (admin_header m.from_user_name u
          ((dictGet st.data.active_dialogs
            (PyVal.vstr (pyStrOfInt u))).getD "Неизвестно") ++ t))) ∧
    admin_reply (add_dialog_message u h1 st)
      ⟨h2, some r, some (admin_header m.from_user_name u
        ((dictGet st.data.active_dialogs
          (PyVal.vstr (pyStrOfInt u))).getD "Неизвестно") ++ t)⟩
      = .ok (add_dialog_message u h2 (add_dialog_message u h1 st), u, r) ∧
    get_dialog_messages u (add_dialog_message u h2 (add_dialog_message u h1 st))
      = [h1, h2] := by
  subst hm
  have hfil : forward_filter st m = .ok true := by
    rw [forward_filter, if_pos hactive, hphoto]
    simp only [Option.isSome_none, Bool.false_eq_true, if_false]
    rw [htext]
    show Except.ok (!pyStartsWith t "/") = Except.ok true
    rw [hcmd]
    rfl
  have hcls : classify m = .ptext t := by
    rw [classify, htext]
    simp only [if_neg htne]
  have hfwd : forward_to_admin st m h1 =
      (add_dialog_message m.from_user_id h1 st, .forwardedMsg (.textMsg h1
        (admin_header m.from_user_name m.from_user_id
          ((dictGet st.data.active_dialogs
            (PyVal.vstr (pyStrOfInt m.from_user_id))).getD "Неизвестно") ++ t))) := by
    rw [forward_to_admin]
    rw [if_neg hnb]
    rw [hcls]
  have g1 : get_dialog_messages m.from_user_id (add_dialog_message m.from_user_id h1 st)
      = [h1] := by
    rw [get_dialog_messages_add st m.from_user_id h1 (by rw [hledger]; simp), hledger]
    rfl
  refine ⟨?_, ?_, ?_⟩
  · simp only [inbound_message, hfil]
    rw [hfwd]
  · exact admin_reply_header (add_dialog_message m.from_user_id h1 st) h2
      m.from_user_name
      ((dictGet st.data.active_dialogs
        (PyVal.vstr (pyStrOfInt m.from_user_id))).getD "Неизвестно") t r
      m.from_user_id hname
  · rw [get_dialog_messages_add _ m.from_user_id h2 (by rw [g1]; simpa using Ne.symm hh), g1]
    rfl

/-- Claim C6 witness: the amended round trip at user 42, name "Alice",
message "hello", reply "hi", handles 100 and 101. -/
theorem help_round_trip_witness :
    msgText42.from_user_id = 42 ∧
    (∀ c ∈ msgText42.from_user_name.data, c ≠ '(') ∧
    dictMem stActive42.data.active_dialogs (PyVal.vstr (pyStrOfInt 42)) = true ∧
    get_dialog_messages 42 stActive42 = [] ∧
    (inbound_message stActive42 msgText42 100 =
      .ok (add_dialog_message 42 100 stActive42, .forwardedMsg (.textMsg 100
        (admin_header msgText42.from_user_name 42
          ((dictGet stActive42.data.active_dialogs
            (PyVal.vstr (pyStrOfInt 42))).getD "Неизвестно") ++ "hello"))) ∧
    admin_reply (add_dialog_message 42 100 stActive42)
      ⟨101, some "hi", some (admin_header msgText42.from_user_name 42
        ((dictGet stActive42.data.active_dialogs
          (PyVal.vstr (pyStrOfInt 42))).getD "Неизвестно") ++ "hello")⟩
      = .ok (add_dialog_message 42 101 (add_dialog_message 42 100 stActive42), 42, "hi") ∧
    get_dialog_messages 42 (add_dialog_message 42 101 (add_dialog_message 42 100 stActive42))
      = [100, 101]) :=
  ⟨rfl, by decide, rfl, rfl,
    help_round_trip stActive42 42 msgText42 "hello" "hi" 100 101 rfl (by decide) rfl
      (by decide) rfl rfl rfl (by decide) rfl (by decide)⟩

/-- Claim C7: appending an already-recorded handle is a no-op on the
persisted state, and appending the same handle twice to an initially
empty record yields a record of length one. -/
theorem append_dedup (st : BotState) (u : Int) (h : Nat) :
    (h ∈ get_dialog_messages u st → add_dialog_message u h st = st) ∧
    (get_dialog_messages u st = [] →
      get_dialog_messages u (add_dialog_message u h (add_dialog_message u h st)) = [h]) := by
  constructor
  · exact add_dialog_message_mem_noop st u h
  · intro he
    have g1 : get_dialog_messages u (add_dialog_message u h st) = [h] := by
      rw [get_dialog_messages_add st u h (by rw [he]; simp), he]
      rfl
    rw [add_dialog_message_mem_noop (add_dialog_message u h st) u h (by rw [g1]; simp), g1]

/-- Claim C7 witness: appending handle 100 twice for user 42 starting
from the empty store leaves a one-element record. -/
theorem append_dedup_witness :
    get_dialog_messages 42 stEmpty = [] ∧
    get_dialog_messages 42
      (add_dialog_message 42 100 (add_dialog_message 42 100 stEmpty)) = [100] :=
  ⟨rfl, (append_dedup stEmpty 42 100).2 rfl⟩

/-- Claim C8: unblocking a user who is not in the Block List returns the
distinct was-not-blocked outcome and changes nothing — the state,
including the Block List and the blocked-users gauge, is returned as is. -/
theorem unblock_not_blocked (st : BotState) (u : Int)
    (hnb : u ∉ st.data.blocked_users) :
    unblock_user u st = (st, UnblockResult.wasNotBlocked) := by
  rw [unblock_user, if_neg hnb]

/-- Claim C8 witness: unblocking user 7, never blocked, in the state
where 42 has an active session. -/
theorem unblock_not_blocked_witness :
    (7 : Int) ∉ stActive42.data.blocked_users ∧
    unblock_user 7 stActive42 = (stActive42, UnblockResult.wasNotBlocked) :=
  ⟨by decide, unblock_not_blocked stActive42 7 (by decide)⟩

/-- Claim C9: blocking a user with no active session (and not already
blocked) appends the user to the Block List, increments the blocked-users
gauge by one, and leaves the Session Store and the active-session gauge
untouched. -/
theorem block_without_session (st : BotState) (u : Int)
    (hns : dictMem st.data.active_dialogs (PyVal.vstr (pyStrOfInt u)) = false)
    (hnb : u ∉ st.data.blocked_users) :
    u ∈ (block_user u st).data.blocked_users ∧
    (block_user u st).blockedGauge = st.blockedGauge + 1 ∧
    (block_user u st).data.active_dialogs = st.data.active_dialogs ∧
    (block_user u st).activeGauge = st.activeGauge := by
  have hcond : ¬ (dictMem (add_blocked_user u st).data.active_dialogs
      (PyVal.vstr (pyStrOfInt u)) = true) := by
    rw [add_blocked_user_active, hns]
    simp
  have hb : block_user u st = add_blocked_user u st := by
    rw [block_user, if_neg hcond]
  have hadd : add_blocked_user u st =
      { st with
        blockedGauge := st.blockedGauge + 1,
        data := { st.data with blocked_users := st.data.blocked_users ++ [u] } } := by
    rw [add_blocked_user, if_neg hnb]
  rw [hb, hadd]
  exact ⟨by simp, rfl, rfl, rfl⟩

/-- Claim C9 witness: blocking user 7 in the empty state. -/
theorem block_without_session_witness :
    dictMem stEmpty.data.active_dialogs (PyVal.vstr (pyStrOfInt 7)) = false ∧
    (7 : Int) ∉ stEmpty.data.blocked_users ∧
    ((7 : Int) ∈ (block_user 7 stEmpty).data.blocked_users ∧
      (block_user 7 stEmpty).blockedGauge = stEmpty.blockedGauge + 1 ∧
      (block_user 7 stEmpty).data.active_dialogs = stEmpty.data.active_dialogs ∧
      (block_user 7 stEmpty).activeGauge = stEmpty.activeGauge) :=
  ⟨rfl, by decide, block_without_session stEmpty 7 rfl (by decide)⟩

/-- Claim C10: the fresh help button offered after EndSession carries
callback data "need_help", which no registered callback filter accepts —
in particular the StartHelp filter requires the "need_help_" prefix — so
pressing it triggers no handler and cannot create a session. -/
theorem help_again_button_matches_no_handler :
    callback_dispatch help_again_callback_data = none ∧
    pyStartsWith help_again_callback_data "need_help_" = false :=
  ⟨rfl, rfl⟩

end CosmeticBot
